import Mathlib

/-!
A shallow embedding of the proposal lifecycle and engagement-tracking core of
the `ai-proposalgen` backend (`src/backend/server.py`), together with theorems
settling the specification claims about it.

Modelling conventions:
* Instants (`datetime.now(timezone.utc)`) are `Nat` values passed in by the
  caller; the stored ISO strings are modelled by the instants themselves.
* The MongoDB collections are lists of records; `update_one` is an update of
  the first record matching the filter, `insert_one` is an append, and
  `find_one` returns the first match.
* Python exceptions are values of `Exn`; a FastAPI handler body that can raise
  is an `Except Exn` computation, and a surrounding `try/except` block is a
  `match` on that computation.  A handler's final outcome is
  `Except HttpFail A` where `HttpFail` is an HTTP status code paired with the
  detail string of the `HTTPException` surfaced to the client.
* JSON numbers (the `deal_value` / `amount` fields) are modelled as `Rat`;
  the code only stores and defaults them, it never computes with them.
-/

/-- HTTP failure surfaced to the client: status code and detail string. -/
abbrev HttpFail := Nat × String

/-- Python exceptions that the embedded handlers can raise.
`httpExn` is `fastapi.HTTPException` (which `except Exception` also catches),
`providerExn` an exception from an external provider call, `nameError` a
`NameError` from referencing an unbound local; `indexError`, `typeError`,
`keyError` and `attributeError` carry `str(e)` of the corresponding Python
exception. -/
inductive Exn where
  | httpExn (status : Nat) (detail : String)
  | providerExn (msg : String)
  | nameError (n : String)
  | indexError (msg : String)
  | typeError (msg : String)
  | keyError (msg : String)
  | attributeError (msg : String)
deriving DecidableEq, Repr

/-- `str(e)` for an exception, as Python renders it in f-strings
(`str(HTTPException(404, "x"))` is `404: x`). -/
def Exn.msg : Exn → String
  | .httpExn s d => toString s ++ ": " ++ d
  | .providerExn m => m
  | .nameError n => "NameError: " ++ n
  | .indexError m => m
  | .typeError m => m
  | .keyError m => m
  | .attributeError m => m

/-- Python's `str.upper()`: per-character uppercasing (the inputs in this
development are ASCII, where `Char.toUpper` and Python agree). -/
def upper (s : String) : String := ⟨s.data.map Char.toUpper⟩

/-- Python's `str.lower()`: per-character lowercasing. -/
def lower (s : String) : String := ⟨s.data.map Char.toLower⟩

/-- `update_one(filter, {"$set": f})` over a list collection: rewrites the
first record satisfying `pred` with `f`, leaves everything else in place. -/
def updateFirstP {α : Type} (pred : α → Bool) (f : α → α) : List α → List α
  | [] => []
  | x :: xs => if pred x then f x :: xs else x :: updateFirstP pred f xs

theorem updateFirstP_of_not_mem {α : Type} (pred : α → Bool) (f : α → α)
    (l : List α) (h : ∀ x ∈ l, pred x = false) : updateFirstP pred f l = l := by
  induction l with
  | nil => rfl
  | cons x xs ih =>
      simp only [updateFirstP, h x (List.mem_cons_self x xs)]
      simp only [Bool.false_eq_true, if_false, List.cons.injEq, true_and]
      exact ih fun y hy => h y (List.mem_cons_of_mem x hy)

/-- The `Proposal` pydantic model (`server.py` lines 73-86). -/
structure Proposal where
  id : String
  client_name : String
  project_description : String
  budget_range : String
  timeline : String
  status : String
  content : Option String
  selected_clauses : List String
  deal_value : Option Rat
  created_at : Nat
  updated_at : Nat
  accepted_at : Option Nat
deriving DecidableEq, Repr

/-- The `ProposalUpdate` pydantic model (`server.py` lines 96-104): every
field optional, defaulting to `None`.  Pydantic parses both an absent JSON
field and an explicit JSON `null` to `None`, so both are `none` here. -/
structure ProposalUpdate where
  client_name : Option String := none
  project_description : Option String := none
  budget_range : Option String := none
  timeline : Option String := none
  status : Option String := none
  content : Option String := none
  selected_clauses : Option (List String) := none
  deal_value : Option Rat := none
deriving DecidableEq, Repr

/-- The effect of `update_proposal`'s `$set` document on one proposal
(`server.py` lines 231-240): `update_dict` keeps exactly the non-`None`
fields of the update, always adds `updated_at = now`, and adds
`accepted_at = now` whenever `update_dict.get('status') == 'Accepted'`. -/
def applyUpdate (now : Nat) (u : ProposalUpdate) (p : Proposal) : Proposal :=
  let base : Proposal :=
    { p with
      client_name := u.client_name.getD p.client_name
      project_description := u.project_description.getD p.project_description
      budget_range := u.budget_range.getD p.budget_range
      timeline := u.timeline.getD p.timeline
      status := u.status.getD p.status
      content := match u.content with | some c => some c | none => p.content
      selected_clauses := u.selected_clauses.getD p.selected_clauses
      deal_value := match u.deal_value with | some v => some v | none => p.deal_value
      updated_at := now }
  if u.status = some "Accepted" then { base with accepted_at := some now } else base

/-- The `PATCH /proposals/{id}` handler `update_proposal`
(`server.py` lines 229-252): `update_one({"id": pid}, {"$set": ...})` followed
by a `matched_count == 0` check raising `HTTPException(404)`, then a
`find_one` returning the updated record. -/
def update_proposal (now : Nat) (pid : String) (u : ProposalUpdate) :
    List Proposal → List Proposal × Except HttpFail Proposal
  | [] => ([], .error (404, "Proposal not found"))
  | p :: rest =>
    if p.id = pid then
      let p2 := applyUpdate now u p
      (p2 :: rest, .ok p2)
    else
      let r := update_proposal now pid u rest
      (p :: r.1, r.2)

/-- A proposal as built by `create_proposal` (`server.py` lines 73-86,
191-201): `status` starts at `"Draft"`, `content` and `accepted_at` at
`None`, both timestamps at the creation instant. -/
def freshProposal (pid cn pd br tl : String) (cl : List String)
    (dv : Option Rat) (now : Nat) : Proposal :=
  { id := pid, client_name := cn, project_description := pd,
    budget_range := br, timeline := tl, status := "Draft", content := none,
    selected_clauses := cl, deal_value := dv, created_at := now,
    updated_at := now, accepted_at := none }

/-- Folding a sequence of timed partial updates over a proposal: the life of
one proposal record under repeated `PATCH` calls. -/
def applyUpdates (p : Proposal) (us : List (Nat × ProposalUpdate)) : Proposal :=
  us.foldl (fun q nu => applyUpdate nu.1 nu.2 q) p

/-- The `EmailLog` pydantic model (`server.py` lines 116-127). -/
structure EmailLog where
  id : String
  proposal_id : String
  recipient_email : String
  subject : String
  sent_at : Nat
  opened : Bool
  opened_at : Option Nat
  clicked : Bool
  clicked_at : Option Nat
  resend_email_id : Option String
deriving DecidableEq, Repr

/-- The `SendEmailRequest` pydantic model (`server.py` lines 129-132). -/
structure SendEmailRequest where
  proposal_id : String
  recipient_email : String
  custom_message : Option String := none
deriving DecidableEq, Repr

/-- The server-side state the `send_email` handler touches: the `proposals`
and `email_logs` collections. -/
structure MailState where
  proposals : List Proposal
  email_logs : List EmailLog
deriving DecidableEq, Repr

/-- `POST /send-email` (`server.py` lines 328-437).  `newLogId` is the
freshly generated log uuid, `providerResult` the outcome of
`resend.Emails.send` (`.ok` carries the provider message id, `.error` models
the call raising).  The whole body is one `try`; `except Exception` converts
any exception raised inside — including the handler's own
`HTTPException(404)` — into `HTTPException(500, "Failed to send email: ...")`.
All persistence (the `email_logs` insert and the proposal status update)
happens after the provider call succeeds. -/
def send_email (now : Nat) (newLogId : String)
    (providerResult : Except String String) (st : MailState)
    (req : SendEmailRequest) : MailState × Except HttpFail String :=
  let body : Except Exn (MailState × String) := do
    let proposal ← match st.proposals.find? (fun p => p.id = req.proposal_id) with
      | some p => Except.ok p
      | none => Except.error (.httpExn 404 "Proposal not found")
    let subject := "Proposal for " ++ proposal.client_name
    let emailId ← match providerResult with
      | .ok mid => Except.ok mid
      | .error m => Except.error (.providerExn m)
    let log : EmailLog :=
      { id := newLogId, proposal_id := req.proposal_id,
        recipient_email := req.recipient_email, subject := subject,
        sent_at := now, opened := false, opened_at := none, clicked := false,
        clicked_at := none, resend_email_id := some emailId }
    let logs := st.email_logs ++ [log]
    let props := updateFirstP (fun p => p.id = req.proposal_id)
      (fun p => { p with status := "Sent", updated_at := now }) st.proposals
    Except.ok ({ proposals := props, email_logs := logs },
      "Email sent to " ++ req.recipient_email)
  match body with
  | .ok (st2, m) => (st2, .ok m)
  | .error e => (st, .error (500, "Failed to send email: " ++ e.msg))

/-- The fixed 1x1 transparent GIF
(`server.py` line 452, `bytes.fromhex('474946...003b')`). -/
def gifBytes : List Nat :=
  [71, 73, 70, 56, 57, 97, 1, 0, 1, 0, 128, 0, 0, 0, 0, 0, 255, 255, 255,
   33, 249, 4, 1, 0, 0, 0, 0, 44, 0, 0, 0, 0, 1, 0, 1, 0, 0, 2, 2, 68, 1,
   0, 59]

/-- A FastAPI `Response` as the tracking endpoints build it. -/
structure TrackResponse where
  status : Nat
  mediaType : String
  body : List Nat
deriving DecidableEq, Repr

/-- `GET /track-open/{email_log_id}` (`server.py` lines 439-456).
`updateRaises` models the `db.email_logs.update_one` call raising (e.g. the
store being unreachable); the handler's `except` branch then evaluates
`Response(content=gif_bytes, ...)` — but `gif_bytes` is assigned inside the
`try` block after the update, so it is unbound there and the branch raises
`NameError`, which escapes the handler.  On the non-raising path the update
filter is `{"id": log_id, "opened": False}`, so only a not-yet-opened log is
stamped, and the fixed GIF is returned. -/
def track_email_open (now : Nat) (updateRaises : Bool)
    (logs : List EmailLog) (logId : String) :
    List EmailLog × Except Exn TrackResponse :=
  if updateRaises then
    (logs, .error (.nameError "gif_bytes"))
  else
    let logs2 := updateFirstP (fun l => l.id = logId && l.opened = false)
      (fun l => { l with opened := true, opened_at := some now }) logs
    (logs2, .ok { status := 200, mediaType := "image/gif", body := gifBytes })

/-- Python's case-insensitive containment test
`needle.upper() in hay.upper()` (string membership is substring search). -/
def upperContains (hay needle : String) : Bool :=
  decide ((upper needle).data <:+: (upper hay).data)

/-- A record of the `google_docs` collection as the document endpoints read
it (`server.py` lines 797-807, 861-871).  The handlers read it as a raw
dictionary with `.get` defaults, so `title` may be absent (`none`) even
though the creation endpoints always write it. -/
structure DocumentRecord where
  id : String
  google_doc_id : String
  title : Option String
  template_id : Option String
  status : String
  created_at : Nat
  updated_at : Nat
  approved_at : Option Nat
  shared_with : List String
deriving DecidableEq, Repr

/-- `POST /google/docs/{document_id}/check-approval`
(`server.py` lines 949-982).  `hasCreds` models `get_google_credentials()`
returning a usable credential, `comments` the `content` fields of the
comments the provider returns.  A comment approves when
`approval_keyword.upper() in content.upper()`.  On approval the handler
`update_one`s the record matching `google_doc_id`, setting
`status = "approved"` and stamping both `approved_at` and `updated_at` with
the current instant, whether or not the record was already approved. -/
def check_doc_approval (now : Nat) (hasCreds : Bool)
    (docs : List DocumentRecord) (docId : String) (keyword : String)
    (comments : List String) :
    List DocumentRecord × Except HttpFail Bool :=
  if hasCreds = false then
    (docs, .error (401, "Google not authorized"))
  else
    let approved := comments.any (fun c => upperContains c keyword)
    if approved then
      (updateFirstP (fun d => d.google_doc_id = docId)
        (fun d => { d with status := "approved", approved_at := some now,
                           updated_at := now }) docs,
       .ok approved)
    else (docs, .ok approved)

/-- A PDF export outcome as streamed back by `export_doc_to_pdf`. -/
structure PdfResponse where
  status : Nat
  mediaType : String
  body : List Nat
  filename : String
deriving DecidableEq, Repr

/-- `GET /google/docs/{document_id}/export-pdf` (`server.py` lines 984-1013).
`provider` is the outcome of the Drive `files().export` call.  The local
metadata lookup never fails the request: a missing record, or a record with
no `title` field, falls back to the title `"document"`
(`doc_meta.get("title", "document") if doc_meta else "document"`).  Only a
missing credential (401) or a provider `HttpError` (500) fail. -/
def export_doc_to_pdf (hasCreds : Bool) (docs : List DocumentRecord)
    (docId : String) (provider : Except String (List Nat)) :
    Except HttpFail PdfResponse :=
  if hasCreds = false then
    .error (401, "Google not authorized")
  else
    let title := match docs.find? (fun d => d.google_doc_id = docId) with
      | none => "document"
      | some m => m.title.getD "document"
    match provider with
    | .error e => .error (500, "Failed to export PDF: " ++ e)
    | .ok pdf =>
        .ok { status := 200, mediaType := "application/pdf", body := pdf,
              filename := title ++ ".pdf" }

/-- A JSON value as Python's json parsing produces it.  `num` covers JSON
numbers and is rendered as Python `int` in error-message type names; no
theorem depends on the int/float distinction. -/
inductive Json where
  | null
  | bool (b : Bool)
  | num (q : Rat)
  | str (s : String)
  | arr (elems : List Json)
  | obj (fields : List (String × Json))

/-- The Python type name of a value, as it appears in error messages. -/
def pyTypeName : Json → String
  | .null => "NoneType"
  | .bool _ => "bool"
  | .num _ => "int"
  | .str _ => "str"
  | .arr _ => "list"
  | .obj _ => "dict"

/-- `d.get(k, default)` on a value known to be a dict: the stored value
when the key is present — even when that value is JSON `null` — and the
default only when the key is absent.  Parsed JSON objects have unique
keys. -/
def objGet (kvs : List (String × Json)) (k : String) (d : Json) : Json :=
  match kvs.find? (fun kv => kv.1 = k) with
  | some kv => kv.2
  | none => d

/-- `x.get(k, default)` on an arbitrary value: dicts look up, every other
value (`None`, booleans, numbers, strings, lists) has no `get` attribute
and raises `AttributeError`. -/
def pyGet (j : Json) (k : String) (d : Json) : Except Exn Json :=
  match j with
  | .obj kvs => .ok (objGet kvs k d)
  | _ => .error (.attributeError
      ("\x27" ++ pyTypeName j ++ "\x27 object has no attribute \x27get\x27"))

/-- `x.lower()`: strings lowercase, every other value raises
`AttributeError`. -/
def pyLower (j : Json) : Except Exn String :=
  match j with
  | .str s => .ok (lower s)
  | _ => .error (.attributeError
      ("\x27" ++ pyTypeName j ++ "\x27 object has no attribute \x27lower\x27"))

/-- `x[0]`: head of a list, or `IndexError` when it is empty; first
character of a string, or `IndexError` when it is empty; `KeyError` on a
dict without integer keys; `TypeError` on `None`, numbers and booleans. -/
def pyIndex0 : Json → Except Exn Json
  | .arr [] => .error (.indexError "list index out of range")
  | .arr (x :: _) => .ok x
  | .str s =>
      match s.data with
      | [] => .error (.indexError "string index out of range")
      | c :: _ => .ok (.str (String.mk [c]))
  | .obj _ => .error (.keyError "0")
  | j => .error (.typeError
      ("\x27" ++ pyTypeName j ++ "\x27 object is not subscriptable"))

/-- Python `x == "lit"` for a JSON value: true exactly when the value is
that string (`None`, numbers, lists and dicts never equal a string). -/
def jeqStr (j : Json) (s : String) : Bool :=
  match j with
  | .str t => t = s
  | _ => false

/-- A record of the `brevo_deals` collection (`server.py` lines
1092-1103).  The extracted fields hold whatever JSON values the defensive
`.get` chain produced (a present-null `deal_name`, for instance, is stored
as null). -/
structure PendingDeal where
  id : String
  brevo_deal_id : Json
  deal_name : Json
  company_name : Json
  contact_email : Json
  deal_value : Json
  stage : String
  status : String
  created_at : Nat
  raw_data : Json

/-- `payload.get("data", {})` (`server.py` line 1082).  The webhook body is
validated to a JSON object by FastAPI (`payload: dict`), so the top level
is a key-value list. -/
def dataOf (payload : List (String × Json)) : Json :=
  objGet payload "data" (.obj [])

/-- The stage computation of `server.py` line 1088:
`deal_data.get("attributes", {}).get("pipeline_stage", "").lower()`.
Each step can raise: a non-dict `deal_data` or `attributes`, or a
non-string `pipeline_stage`, is an `AttributeError`. -/
def stageResult (dd : Json) : Except Exn String := do
  let attrs ← pyGet dd "attributes" (.obj [])
  let ps ← pyGet attrs "pipeline_stage" (.str "")
  pyLower ps

/-- The five extracted values of the `brevo_deal` dict literal
(`server.py` lines 1094-1098), evaluated in source order:
deal id, deal name, first company name, first contact email, amount. -/
def buildFields (dd : Json) : Except Exn (Json × Json × Json × Json × Json) := do
  let bdid ← pyGet dd "id" Json.null
  let attrs1 ← pyGet dd "attributes" (.obj [])
  let dname ← pyGet attrs1 "deal_name" (.str "Unknown")
  let lc ← pyGet dd "linked_companies" (.arr [.obj []])
  let lc0 ← pyIndex0 lc
  let cname ← pyGet lc0 "name" (.str "Unknown")
  let lct ← pyGet dd "linked_contacts" (.arr [.obj []])
  let lct0 ← pyIndex0 lct
  let cemail ← pyGet lct0 "email" (.str "")
  let attrs2 ← pyGet dd "attributes" (.obj [])
  let dvalue ← pyGet attrs2 "amount" (.num 0)
  Except.ok (bdid, dname, cname, cemail, dvalue)

/-- The stored `brevo_deal` record (`server.py` lines 1092-1103): the
extracted fields together with the literal `status`, the lowered stage,
the generated id, the creation instant and the raw `data` snapshot. -/
def buildDeal (now : Nat) (newId : String) (dd : Json) (stage : String) :
    Except Exn PendingDeal :=
  (buildFields dd).map (fun f =>
    { id := newId, brevo_deal_id := f.1, deal_name := f.2.1,
      company_name := f.2.2.1, contact_email := f.2.2.2.1,
      deal_value := f.2.2.2.2, stage := stage,
      status := "pending_doc_creation", created_at := now, raw_data := dd })

/-- `POST /webhooks/brevo` (`server.py` lines 1077-1113).  `newId` is the
generated uuid of the stored deal.  Only a `deal.stage.update` event whose
lowered pipeline-stage label contains `"proposal"` inserts a `PendingDeal`
with `status = "pending_doc_creation"`.  Any exception raised while
navigating the payload — `AttributeError` on present-null or mistyped
`data` / `attributes` / `pipeline_stage`, `IndexError` / `TypeError` /
`KeyError` / `AttributeError` on malformed linked lists — is caught by the
blanket `except` and surfaced as `HTTPException(500)`; every other
parseable payload is acknowledged with success. -/
def brevo_webhook (now : Nat) (newId : String) (deals : List PendingDeal)
    (payload : List (String × Json)) :
    List PendingDeal × Except HttpFail String :=
  let body : Except Exn (List PendingDeal × String) :=
    if jeqStr (objGet payload "event" Json.null) "deal.stage.update" then do
      let new_stage ← stageResult (dataOf payload)
      if "proposal".data <:+: new_stage.data then do
        let deal ← buildDeal now newId (dataOf payload) new_stage
        Except.ok (deals ++ [deal], "Deal queued for proposal creation")
      else Except.ok (deals, "Webhook received")
    else Except.ok (deals, "Webhook received")
  match body with
  | .ok (ds, m) => (ds, .ok m)
  | .error e => (deals, .error (500, "Webhook processing failed: " ++ e.msg))

/-- `true` exactly on JSON values of the form `[{...}, ...]`: a non-empty
array whose first element is an object — the only shape on which
`x[0].get(...)` succeeds (absent linked-list keys default to `[{}]`, which
has this shape). -/
def firstElemObjOk : Json → Bool
  | .arr (.obj _ :: _) => true
  | _ => false

/-- The lowered pipeline-stage label of a deal-data value whose navigation
is shape-safe: `data` an object, a present `attributes` an object, a
present `pipeline_stage` a string; `none` on every shape on which
`server.py` line 1088 raises. -/
def stageStrOf : Json → Option String
  | .obj kvs =>
      match objGet kvs "attributes" (.obj []) with
      | .obj akvs =>
          match objGet akvs "pipeline_stage" (.str "") with
          | .str s => some (lower s)
          | _ => none
      | _ => none
  | _ => none

/-- Both linked-list values of the deal data (after their `[{}]` absence
defaults) are non-empty arrays headed by an object — the shape on which
the record construction at `server.py` lines 1096-1097 cannot raise. -/
def linkedListsOk (payload : List (String × Json)) : Bool :=
  match dataOf payload with
  | .obj kvs =>
      firstElemObjOk (objGet kvs "linked_companies" (.arr [.obj []])) &&
      firstElemObjOk (objGet kvs "linked_contacts" (.arr [.obj []]))
  | _ => false

/-- The payload shapes on which the webhook handler raises no exception:
anything for a non-matching event; for a `deal.stage.update` event the
stage navigation must be shape-safe, and when the stage matches
`"proposal"` the linked lists must be safe too. -/
def webhookSafe (payload : List (String × Json)) : Bool :=
  if jeqStr (objGet payload "event" Json.null) "deal.stage.update" then
    match stageStrOf (dataOf payload) with
    | none => false
    | some s =>
        if "proposal".data <:+: s.data then linkedListsOk payload else true
  else true

/-- The condition under which the webhook stores a deal: a
`deal.stage.update` event whose shape-safe, lowered pipeline-stage label
contains `"proposal"`. -/
def webhookMatches (payload : List (String × Json)) : Prop :=
  jeqStr (objGet payload "event" Json.null) "deal.stage.update" = true ∧
    ∃ s, stageStrOf (dataOf payload) = some s ∧ "proposal".data <:+: s.data

/-! Concrete records used by the counterexample and witness theorems. -/

/-- A proposal that has already been accepted once, at instant 5. -/
def acceptedProposal : Proposal :=
  { id := "p1", client_name := "Acme", project_description := "site",
    budget_range := "10k", timeline := "Q1", status := "Accepted",
    content := some "body", selected_clauses := [], deal_value := none,
    created_at := 0, updated_at := 5, accepted_at := some 5 }

/-- The partial update that only sets `status` to `Accepted`. -/
def acceptUpdate : ProposalUpdate := { status := some "Accepted" }

/-- A draft proposal that has never been accepted. -/
def draftProposal : Proposal :=
  { id := "p2", client_name := "Globex", project_description := "app",
    budget_range := "20k", timeline := "Q2", status := "Draft",
    content := some "text", selected_clauses := ["c1"],
    deal_value := some 7, created_at := 1, updated_at := 1,
    accepted_at := none }

/-- The partial update that only sets `status` to `Accepted`, used against
`draftProposal` for the frame-effect counterexample. -/
def frameAcceptUpdate : ProposalUpdate := { status := some "Accepted" }

/-- An update naming no field at all. -/
def emptyUpdate : ProposalUpdate := {}

/-- A send request addressed to a proposal id that is present in
`oneProposalState`. -/
def sendReq : SendEmailRequest :=
  { proposal_id := "p2", recipient_email := "alice@example.com" }

/-- A send request addressed to an absent proposal id. -/
def sendReqMissing : SendEmailRequest :=
  { proposal_id := "ghost", recipient_email := "alice@example.com" }

/-- A mail state holding one proposal and no logs. -/
def oneProposalState : MailState :=
  { proposals := [draftProposal], email_logs := [] }

/-- A document record that was already approved at instant 1. -/
def approvedDoc : DocumentRecord :=
  { id := "d1", google_doc_id := "g1", title := some "Deal doc",
    template_id := none, status := "approved", created_at := 0,
    updated_at := 1, approved_at := some 1, shared_with := [] }

/-- A document record whose raw dictionary has no `title` field. -/
def untitledDoc : DocumentRecord :=
  { id := "d2", google_doc_id := "g2", title := none,
    template_id := none, status := "draft", created_at := 0,
    updated_at := 0, approved_at := none, shared_with := [] }

/-- A webhook payload whose event and stage match but whose
`linked_contacts` key is present with an explicitly empty list. -/
def emptyContactsPayload : List (String × Json) :=
  [("event", .str "deal.stage.update"),
   ("data", .obj [("attributes", .obj [("pipeline_stage", .str "Proposal Sent")]),
                  ("linked_contacts", .arr [])])]

/-- A webhook payload whose event and stage match but whose
`linked_companies` key is present with an explicitly empty list. -/
def emptyCompaniesPayload : List (String × Json) :=
  [("event", .str "deal.stage.update"),
   ("data", .obj [("attributes", .obj [("pipeline_stage", .str "proposal")]),
                  ("linked_companies", .arr [])])]

/-- A payload whose `data` key is present with JSON null. -/
def nullDataPayload : List (String × Json) :=
  [("event", .str "deal.stage.update"), ("data", .null)]

/-- A matching payload whose optional deal fields are all absent. -/
def bareMatchingPayload : List (String × Json) :=
  [("event", .str "deal.stage.update"),
   ("data", .obj [("attributes", .obj [("pipeline_stage", .str "Proposal Sent")])])]

/-- A payload for a stage that does not mention proposals. -/
def negotiationPayload : List (String × Json) :=
  [("event", .str "deal.stage.update"),
   ("data", .obj [("attributes", .obj [("pipeline_stage", .str "Negotiation")])])]

/-- A payload carrying no event field at all. -/
def noEventPayload : List (String × Json) := []

/-! Helper lemmas about the embedded operations. -/

theorem applyUpdate_id (now : Nat) (u : ProposalUpdate) (p : Proposal) :
    (applyUpdate now u p).id = p.id := by
  by_cases h : u.status = some "Accepted" <;> simp [applyUpdate, h]

theorem applyUpdate_created_at (now : Nat) (u : ProposalUpdate) (p : Proposal) :
    (applyUpdate now u p).created_at = p.created_at := by
  by_cases h : u.status = some "Accepted" <;> simp [applyUpdate, h]

theorem applyUpdate_updated_at (now : Nat) (u : ProposalUpdate) (p : Proposal) :
    (applyUpdate now u p).updated_at = now := by
  by_cases h : u.status = some "Accepted" <;> simp [applyUpdate, h]

theorem applyUpdate_client_name (now : Nat) (u : ProposalUpdate) (p : Proposal) :
    (applyUpdate now u p).client_name = u.client_name.getD p.client_name := by
  by_cases h : u.status = some "Accepted" <;> simp [applyUpdate, h]

theorem applyUpdate_project_description (now : Nat) (u : ProposalUpdate)
    (p : Proposal) :
    (applyUpdate now u p).project_description =
      u.project_description.getD p.project_description := by
  by_cases h : u.status = some "Accepted" <;> simp [applyUpdate, h]

theorem applyUpdate_budget_range (now : Nat) (u : ProposalUpdate) (p : Proposal) :
    (applyUpdate now u p).budget_range = u.budget_range.getD p.budget_range := by
  by_cases h : u.status = some "Accepted" <;> simp [applyUpdate, h]

theorem applyUpdate_timeline (now : Nat) (u : ProposalUpdate) (p : Proposal) :
    (applyUpdate now u p).timeline = u.timeline.getD p.timeline := by
  by_cases h : u.status = some "Accepted" <;> simp [applyUpdate, h]

theorem applyUpdate_status (now : Nat) (u : ProposalUpdate) (p : Proposal) :
    (applyUpdate now u p).status = u.status.getD p.status := by
  by_cases h : u.status = some "Accepted" <;> simp [applyUpdate, h]

theorem applyUpdate_content (now : Nat) (u : ProposalUpdate) (p : Proposal) :
    (applyUpdate now u p).content =
      match u.content with | some c => some c | none => p.content := by
  by_cases h : u.status = some "Accepted" <;> simp [applyUpdate, h]

theorem applyUpdate_selected_clauses (now : Nat) (u : ProposalUpdate)
    (p : Proposal) :
    (applyUpdate now u p).selected_clauses =
      u.selected_clauses.getD p.selected_clauses := by
  by_cases h : u.status = some "Accepted" <;> simp [applyUpdate, h]

theorem applyUpdate_deal_value (now : Nat) (u : ProposalUpdate) (p : Proposal) :
    (applyUpdate now u p).deal_value =
      match u.deal_value with | some v => some v | none => p.deal_value := by
  by_cases h : u.status = some "Accepted" <;> simp [applyUpdate, h]

theorem applyUpdate_accepted_at (now : Nat) (u : ProposalUpdate) (p : Proposal) :
    (applyUpdate now u p).accepted_at =
      if u.status = some "Accepted" then some now else p.accepted_at := by
  by_cases h : u.status = some "Accepted" <;> simp [applyUpdate, h]

theorem applyUpdates_nil (p : Proposal) : applyUpdates p [] = p := rfl

theorem applyUpdates_cons (p : Proposal) (x : Nat × ProposalUpdate)
    (xs : List (Nat × ProposalUpdate)) :
    applyUpdates p (x :: xs) = applyUpdates (applyUpdate x.1 x.2 p) xs := rfl

theorem applyUpdates_accepted_at_ne_none (us : List (Nat × ProposalUpdate)) :
    ∀ p : Proposal, p.accepted_at ≠ none →
      (applyUpdates p us).accepted_at ≠ none := by
  induction us with
  | nil => intro p h; simpa [applyUpdates_nil] using h
  | cons x xs ih =>
      intro p h
      rw [applyUpdates_cons]
      apply ih
      rw [applyUpdate_accepted_at]
      by_cases hx : x.2.status = some "Accepted" <;> simp [hx, h]

theorem applyUpdates_accepted_at_iff (us : List (Nat × ProposalUpdate)) :
    ∀ p : Proposal, p.accepted_at = none →
      ((applyUpdates p us).accepted_at ≠ none ↔
        ∃ x ∈ us, x.2.status = some "Accepted") := by
  induction us with
  | nil => intro p h; simp [applyUpdates_nil, h]
  | cons x xs ih =>
      intro p h
      rw [applyUpdates_cons]
      by_cases hx : x.2.status = some "Accepted"
      · constructor
        · intro _; exact ⟨x, List.mem_cons_self x xs, hx⟩
        · intro _
          apply applyUpdates_accepted_at_ne_none
          rw [applyUpdate_accepted_at]
          simp [hx]
      · have hstep : (applyUpdate x.1 x.2 p).accepted_at = none := by
          rw [applyUpdate_accepted_at]; simp [hx, h]
        rw [ih _ hstep]
        constructor
        · rintro ⟨y, hy, hys⟩; exact ⟨y, List.mem_cons_of_mem x hy, hys⟩
        · rintro ⟨y, hy, hys⟩
          rcases List.mem_cons.mp hy with h1 | h1
          · exact absurd (h1 ▸ hys) hx
          · exact ⟨y, h1, hys⟩

theorem update_proposal_not_found (now : Nat) (pid : String)
    (u : ProposalUpdate) (db : List Proposal) (h : ∀ p ∈ db, p.id ≠ pid) :
    update_proposal now pid u db = (db, .error (404, "Proposal not found")) := by
  induction db with
  | nil => rfl
  | cons p rest ih =>
      have hp : ¬ p.id = pid := h p (List.mem_cons_self p rest)
      have hrest := ih fun q hq => h q (List.mem_cons_of_mem p hq)
      simp [update_proposal, hp, hrest]

theorem update_proposal_found (now : Nat) (pid : String) (u : ProposalUpdate)
    (db : List Proposal) (p : Proposal)
    (h : db.find? (fun q => q.id = pid) = some p) :
    (update_proposal now pid u db).2 = .ok (applyUpdate now u p) := by
  induction db with
  | nil => simp at h
  | cons q rest ih =>
      by_cases hq : q.id = pid
      · rw [List.find?_cons_of_pos _ (by simpa using hq)] at h
        cases h
        simp [update_proposal, hq]
      · rw [List.find?_cons_of_neg _ (by simpa using hq)] at h
        simp [update_proposal, hq, ih h]

theorem find?_updateFirstP {α : Type} (pred : α → Bool) (f : α → α)
    (hf : ∀ a, pred a = true → pred (f a) = true) (l : List α) :
    (updateFirstP pred f l).find? pred = (l.find? pred).map f := by
  induction l with
  | nil => rfl
  | cons x xs ih =>
      by_cases hx : pred x = true
      · rw [updateFirstP, if_pos hx, List.find?_cons_of_pos _ (hf x hx),
          List.find?_cons_of_pos _ hx]
        rfl
      · rw [updateFirstP, if_neg (by simp [hx]),
          List.find?_cons_of_neg _ (by simp [hx]),
          List.find?_cons_of_neg _ (by simp [hx]), ih]

theorem firstElemObjOk_iff (j : Json) :
    firstElemObjOk j = true ↔ ∃ ys xs, j = .arr (.obj ys :: xs) := by
  constructor
  · intro h
    match j, h with
    | .arr (.obj ys :: xs), _ => exact ⟨ys, xs, rfl⟩
  · rintro ⟨ys, xs, rfl⟩
    rfl

theorem stageStrOf_shape (dd : Json) (s : String)
    (h : stageStrOf dd = some s) :
    ∃ kvs akvs s0, dd = .obj kvs ∧
      objGet kvs "attributes" (.obj []) = .obj akvs ∧
      objGet akvs "pipeline_stage" (.str "") = .str s0 ∧ s = lower s0 := by
  match dd, h with
  | .null, h => simp [stageStrOf] at h
  | .bool b, h => simp [stageStrOf] at h
  | .num q, h => simp [stageStrOf] at h
  | .str t, h => simp [stageStrOf] at h
  | .arr l, h => simp [stageStrOf] at h
  | .obj kvs, h =>
      cases ha : objGet kvs "attributes" (.obj []) with
      | obj akvs =>
          cases hp : objGet akvs "pipeline_stage" (.str "") with
          | str s0 =>
              refine ⟨kvs, akvs, s0, rfl, ha, hp, ?_⟩
              simp [stageStrOf, ha, hp] at h
              exact h.symm
          | null => simp [stageStrOf, ha, hp] at h
          | bool b => simp [stageStrOf, ha, hp] at h
          | num q => simp [stageStrOf, ha, hp] at h
          | arr l => simp [stageStrOf, ha, hp] at h
          | obj o => simp [stageStrOf, ha, hp] at h
      | null => simp [stageStrOf, ha] at h
      | bool b => simp [stageStrOf, ha] at h
      | num q => simp [stageStrOf, ha] at h
      | str t => simp [stageStrOf, ha] at h
      | arr l => simp [stageStrOf, ha] at h

theorem stageResult_of_some (dd : Json) (s : String)
    (h : stageStrOf dd = some s) : stageResult dd = .ok s := by
  obtain ⟨kvs, akvs, s0, rfl, ha, hp, rfl⟩ := stageStrOf_shape dd s h
  simp [stageResult, pyGet, ha, hp, pyLower, Bind.bind, Except.bind]

theorem stageResult_ok_inv (dd : Json) (s : String)
    (h : stageResult dd = .ok s) : stageStrOf dd = some s := by
  match dd with
  | .null => simp [stageResult, pyGet, Bind.bind, Except.bind] at h
  | .bool b => simp [stageResult, pyGet, Bind.bind, Except.bind] at h
  | .num q => simp [stageResult, pyGet, Bind.bind, Except.bind] at h
  | .str t => simp [stageResult, pyGet, Bind.bind, Except.bind] at h
  | .arr l => simp [stageResult, pyGet, Bind.bind, Except.bind] at h
  | .obj kvs =>
      cases ha : objGet kvs "attributes" (.obj []) with
      | obj akvs =>
          cases hp : objGet akvs "pipeline_stage" (.str "") with
          | str s0 =>
              simp only [stageResult, pyGet, ha, pyLower, hp, Bind.bind,
                Except.bind, Except.ok.injEq] at h
              simp [stageStrOf, ha, hp, h]
          | null =>
              simp [stageResult, pyGet, ha, pyLower, hp, Bind.bind,
                Except.bind] at h
          | bool b =>
              simp [stageResult, pyGet, ha, pyLower, hp, Bind.bind,
                Except.bind] at h
          | num q =>
              simp [stageResult, pyGet, ha, pyLower, hp, Bind.bind,
                Except.bind] at h
          | arr l =>
              simp [stageResult, pyGet, ha, pyLower, hp, Bind.bind,
                Except.bind] at h
          | obj o =>
              simp [stageResult, pyGet, ha, pyLower, hp, Bind.bind,
                Except.bind] at h
      | null => simp [stageResult, pyGet, ha, Bind.bind, Except.bind] at h
      | bool b => simp [stageResult, pyGet, ha, Bind.bind, Except.bind] at h
      | num q => simp [stageResult, pyGet, ha, Bind.bind, Except.bind] at h
      | str t => simp [stageResult, pyGet, ha, Bind.bind, Except.bind] at h
      | arr l => simp [stageResult, pyGet, ha, Bind.bind, Except.bind] at h

theorem buildFields_ok (kvs akvs cys tys : List (String × Json))
    (cxs txs : List Json)
    (ha : objGet kvs "attributes" (.obj []) = .obj akvs)
    (hc : objGet kvs "linked_companies" (.arr [.obj []]) =
      .arr (.obj cys :: cxs))
    (hct : objGet kvs "linked_contacts" (.arr [.obj []]) =
      .arr (.obj tys :: txs)) :
    buildFields (.obj kvs) = .ok
      (objGet kvs "id" Json.null,
       objGet akvs "deal_name" (.str "Unknown"),
       objGet cys "name" (.str "Unknown"),
       objGet tys "email" (.str ""),
       objGet akvs "amount" (.num 0)) := by
  simp [buildFields, pyGet, pyIndex0, ha, hc, hct, Bind.bind, Except.bind]

theorem buildFields_ok_inv (kvs : List (String × Json))
    (f : Json × Json × Json × Json × Json)
    (h : buildFields (.obj kvs) = .ok f) :
    firstElemObjOk (objGet kvs "linked_companies" (.arr [.obj []])) = true ∧
    firstElemObjOk (objGet kvs "linked_contacts" (.arr [.obj []])) = true := by
  cases ha : objGet kvs "attributes" (.obj []) with
  | null => simp [buildFields, pyGet, ha, Bind.bind, Except.bind] at h
  | bool b => simp [buildFields, pyGet, ha, Bind.bind, Except.bind] at h
  | num q => simp [buildFields, pyGet, ha, Bind.bind, Except.bind] at h
  | str t => simp [buildFields, pyGet, ha, Bind.bind, Except.bind] at h
  | arr l => simp [buildFields, pyGet, ha, Bind.bind, Except.bind] at h
  | obj akvs =>
      cases hlc : objGet kvs "linked_companies" (.arr [.obj []]) with
      | null => simp [buildFields, pyGet, pyIndex0, ha, hlc, Bind.bind,
          Except.bind] at h
      | bool b => simp [buildFields, pyGet, pyIndex0, ha, hlc, Bind.bind,
          Except.bind] at h
      | num q => simp [buildFields, pyGet, pyIndex0, ha, hlc, Bind.bind,
          Except.bind] at h
      | obj o => simp [buildFields, pyGet, pyIndex0, ha, hlc, Bind.bind,
          Except.bind] at h
      | str t =>
          cases t with
          | mk cs =>
              cases cs with
              | nil => simp [buildFields, pyGet, pyIndex0, ha, hlc,
                  Bind.bind, Except.bind] at h
              | cons c cs2 => simp [buildFields, pyGet, pyIndex0, ha, hlc,
                  Bind.bind, Except.bind] at h
      | arr l =>
          cases l with
          | nil => simp [buildFields, pyGet, pyIndex0, ha, hlc, Bind.bind,
              Except.bind] at h
          | cons x xs2 =>
              cases x with
              | null => simp [buildFields, pyGet, pyIndex0, ha, hlc,
                  Bind.bind, Except.bind] at h
              | bool b => simp [buildFields, pyGet, pyIndex0, ha, hlc,
                  Bind.bind, Except.bind] at h
              | num q => simp [buildFields, pyGet, pyIndex0, ha, hlc,
                  Bind.bind, Except.bind] at h
              | str t2 => simp [buildFields, pyGet, pyIndex0, ha, hlc,
                  Bind.bind, Except.bind] at h
              | arr l2 => simp [buildFields, pyGet, pyIndex0, ha, hlc,
                  Bind.bind, Except.bind] at h
              | obj ys =>
                  refine ⟨rfl, ?_⟩
                  cases hlt : objGet kvs "linked_contacts" (.arr [.obj []]) with
                  | null => simp [buildFields, pyGet, pyIndex0, ha, hlc, hlt,
                      Bind.bind, Except.bind] at h
                  | bool b => simp [buildFields, pyGet, pyIndex0, ha, hlc, hlt,
                      Bind.bind, Except.bind] at h
                  | num q => simp [buildFields, pyGet, pyIndex0, ha, hlc, hlt,
                      Bind.bind, Except.bind] at h
                  | obj o => simp [buildFields, pyGet, pyIndex0, ha, hlc, hlt,
                      Bind.bind, Except.bind] at h
                  | str t3 =>
                      cases t3 with
                      | mk ds =>
                          cases ds with
                          | nil => simp [buildFields, pyGet, pyIndex0, ha, hlc,
                              hlt, Bind.bind, Except.bind] at h
                          | cons d2 ds2 => simp [buildFields, pyGet, pyIndex0,
                              ha, hlc, hlt, Bind.bind, Except.bind] at h
                  | arr l3 =>
                      cases l3 with
                      | nil => simp [buildFields, pyGet, pyIndex0, ha, hlc,
                          hlt, Bind.bind, Except.bind] at h
                      | cons y ys2 =>
                          cases y with
                          | null => simp [buildFields, pyGet, pyIndex0, ha,
                              hlc, hlt, Bind.bind, Except.bind] at h
                          | bool b => simp [buildFields, pyGet, pyIndex0, ha,
                              hlc, hlt, Bind.bind, Except.bind] at h
                          | num q => simp [buildFields, pyGet, pyIndex0, ha,
                              hlc, hlt, Bind.bind, Except.bind] at h
                          | str t4 => simp [buildFields, pyGet, pyIndex0, ha,
                              hlc, hlt, Bind.bind, Except.bind] at h
                          | arr l4 => simp [buildFields, pyGet, pyIndex0, ha,
                              hlc, hlt, Bind.bind, Except.bind] at h
                          | obj zs => rfl

theorem brevo_webhook_other_event (now : Nat) (newId : String)
    (deals : List PendingDeal) (payload : List (String × Json))
    (he : jeqStr (objGet payload "event" Json.null) "deal.stage.update" = false) :
    brevo_webhook now newId deals payload = (deals, .ok "Webhook received") := by
  simp [brevo_webhook, he]

theorem brevo_webhook_stage_err (now : Nat) (newId : String)
    (deals : List PendingDeal) (payload : List (String × Json))
    (he : jeqStr (objGet payload "event" Json.null) "deal.stage.update" = true)
    (hs : stageStrOf (dataOf payload) = none) :
    ∃ m, brevo_webhook now newId deals payload = (deals, .error (500, m)) := by
  cases hr : stageResult (dataOf payload) with
  | ok s => exact absurd (stageResult_ok_inv _ _ hr) (by rw [hs]; simp)
  | error e =>
      refine ⟨"Webhook processing failed: " ++ e.msg, ?_⟩
      simp [brevo_webhook, he, hr, Bind.bind, Except.bind]

theorem brevo_webhook_no_match (now : Nat) (newId : String)
    (deals : List PendingDeal) (payload : List (String × Json))
    (he : jeqStr (objGet payload "event" Json.null) "deal.stage.update" = true)
    (s : String) (hs : stageStrOf (dataOf payload) = some s)
    (hinf : ¬ "proposal".data <:+: s.data) :
    brevo_webhook now newId deals payload = (deals, .ok "Webhook received") := by
  simp [brevo_webhook, he, stageResult_of_some _ _ hs, hinf,
    Bind.bind, Except.bind]

theorem brevo_webhook_match_ok (now : Nat) (newId : String)
    (deals : List PendingDeal) (payload : List (String × Json))
    (he : jeqStr (objGet payload "event" Json.null) "deal.stage.update" = true)
    (s : String) (hs : stageStrOf (dataOf payload) = some s)
    (hinf : "proposal".data <:+: s.data)
    (hll : linkedListsOk payload = true) :
    ∃ d, brevo_webhook now newId deals payload =
        (deals ++ [d], .ok "Deal queued for proposal creation") ∧
      d.status = "pending_doc_creation" ∧ d.id = newId ∧ d.stage = s := by
  obtain ⟨kvs, akvs, s0, hdd, ha, hp, hlow⟩ := stageStrOf_shape _ _ hs
  have hll2 := hll
  unfold linkedListsOk at hll2
  rw [hdd] at hll2
  simp only [Bool.and_eq_true] at hll2
  obtain ⟨hc, hct⟩ := hll2
  obtain ⟨cys, cxs, hceq⟩ := (firstElemObjOk_iff _).mp hc
  obtain ⟨tys, txs, hcteq⟩ := (firstElemObjOk_iff _).mp hct
  refine ⟨{ id := newId,
            brevo_deal_id := objGet kvs "id" Json.null,
            deal_name := objGet akvs "deal_name" (.str "Unknown"),
            company_name := objGet cys "name" (.str "Unknown"),
            contact_email := objGet tys "email" (.str ""),
            deal_value := objGet akvs "amount" (.num 0),
            stage := s, status := "pending_doc_creation",
            created_at := now, raw_data := .obj kvs }, ?_, rfl, rfl, rfl⟩
  have hs2 : stageStrOf (Json.obj kvs) = some s := by rw [← hdd]; exact hs
  simp [brevo_webhook, he, hdd, stageResult_of_some _ _ hs2, hinf, buildDeal,
    buildFields_ok kvs akvs cys tys cxs txs ha hceq hcteq,
    Bind.bind, Except.bind, Except.map]

theorem brevo_webhook_match_err (now : Nat) (newId : String)
    (deals : List PendingDeal) (payload : List (String × Json))
    (he : jeqStr (objGet payload "event" Json.null) "deal.stage.update" = true)
    (s : String) (hs : stageStrOf (dataOf payload) = some s)
    (hinf : "proposal".data <:+: s.data)
    (hll : linkedListsOk payload = false) :
    ∃ m, brevo_webhook now newId deals payload = (deals, .error (500, m)) := by
  obtain ⟨kvs, akvs, s0, hdd, ha, hp, hlow⟩ := stageStrOf_shape _ _ hs
  cases hb : buildFields (.obj kvs) with
  | ok f =>
      exfalso
      obtain ⟨hc, hct⟩ := buildFields_ok_inv kvs f hb
      have hll2 := hll
      unfold linkedListsOk at hll2
      rw [hdd] at hll2
      simp [hc, hct] at hll2
  | error e =>
      refine ⟨"Webhook processing failed: " ++ e.msg, ?_⟩
      have hs2 : stageStrOf (Json.obj kvs) = some s := by rw [← hdd]; exact hs
      simp [brevo_webhook, he, hdd, stageResult_of_some _ _ hs2, hinf,
        buildDeal, hb, Bind.bind, Except.bind, Except.map]
/-! Claim theorems. -/

/-- C1 (counterexample): the claim says a transition to `Accepted` leaves an
already-set `accepted_at` unchanged; on `acceptedProposal` (accepted at
instant 5) a further update to `Accepted` at instant 9 overwrites
`accepted_at` with 9. -/
theorem C1_counterexample_accepted_at_overwritten :
    (applyUpdate 9 acceptUpdate acceptedProposal).accepted_at = some 9 ∧
      acceptedProposal.accepted_at = some 5 ∧ some 9 ≠ (some 5 : Option Nat) := by
  refine ⟨?_, rfl, by decide⟩
  rw [applyUpdate_accepted_at]; rfl

/-- C1 (amended): a transition whose partial update sets status to
`Accepted` sets `accepted_at` to the current instant unconditionally,
overwriting any previously-set value; starting from a proposal with
`accepted_at = None`, after any sequence of transitions `accepted_at` is
non-null if and only if some transition in the sequence set status to
`Accepted`. -/
theorem C1_accepted_at_lifecycle :
    (∀ (now : Nat) (u : ProposalUpdate) (p : Proposal),
        u.status = some "Accepted" →
        (applyUpdate now u p).accepted_at = some now) ∧
    (∀ (p : Proposal) (us : List (Nat × ProposalUpdate)),
        p.accepted_at = none →
        ((applyUpdates p us).accepted_at ≠ none ↔
          ∃ x ∈ us, x.2.status = some "Accepted")) := by
  constructor
  · intro now u p hu
    rw [applyUpdate_accepted_at, if_pos hu]
  · intro p us hp
    exact applyUpdates_accepted_at_iff us p hp

/-- C1 (witness): `C1_accepted_at_lifecycle` applied to the accepted
proposal at instant 9, and to the draft proposal with a single accepting
transition. -/
theorem C1_accepted_at_lifecycle_witness :
    (applyUpdate 9 acceptUpdate acceptedProposal).accepted_at = some 9 ∧
      ((applyUpdates draftProposal [(4, acceptUpdate)]).accepted_at ≠ none ↔
        ∃ x ∈ [((4 : Nat), acceptUpdate)], x.2.status = some "Accepted") :=
  ⟨C1_accepted_at_lifecycle.1 9 acceptUpdate acceptedProposal rfl,
   C1_accepted_at_lifecycle.2 draftProposal [(4, acceptUpdate)] rfl⟩

/-- C7 (counterexample): the claim says every field not named in the update
keeps its prior value (only `updated_at` changes); the update naming only
`status := "Accepted"` also changes `accepted_at`, a field a
`ProposalUpdate` cannot name at all. -/
theorem C7_counterexample_accepted_at_not_framed :
    (applyUpdate 7 frameAcceptUpdate draftProposal).accepted_at = some 7 ∧
      draftProposal.accepted_at = none := by
  refine ⟨?_, rfl⟩
  rw [applyUpdate_accepted_at]; rfl

/-- C7 (amended): `transition(proposal_id, partial_update)` fails with
`NotFound` (404) and changes no proposal when no proposal with the given id
exists; on the first proposal whose id matches it applies exactly the
partial update: `id` and `created_at` are never touched, `updated_at` is
set to the current instant, every updatable field absent from the update
keeps its prior value, and `accepted_at` keeps its prior value unless the
update sets status to `Accepted`. -/
theorem C7_partial_update_semantics :
    (∀ (now : Nat) (pid : String) (u : ProposalUpdate) (db : List Proposal),
        (∀ p ∈ db, p.id ≠ pid) →
        update_proposal now pid u db = (db, .error (404, "Proposal not found"))) ∧
    (∀ (now : Nat) (pid : String) (u : ProposalUpdate) (db : List Proposal)
        (p : Proposal), db.find? (fun q => q.id = pid) = some p →
        (update_proposal now pid u db).2 = .ok (applyUpdate now u p)) ∧
    (∀ (now : Nat) (u : ProposalUpdate) (p : Proposal),
        (applyUpdate now u p).id = p.id ∧
        (applyUpdate now u p).created_at = p.created_at ∧
        (applyUpdate now u p).updated_at = now ∧
        (u.client_name = none →
          (applyUpdate now u p).client_name = p.client_name) ∧
        (u.project_description = none →
          (applyUpdate now u p).project_description = p.project_description) ∧
        (u.budget_range = none →
          (applyUpdate now u p).budget_range = p.budget_range) ∧
        (u.timeline = none → (applyUpdate now u p).timeline = p.timeline) ∧
        (u.status = none → (applyUpdate now u p).status = p.status) ∧
        (u.content = none → (applyUpdate now u p).content = p.content) ∧
        (u.selected_clauses = none →
          (applyUpdate now u p).selected_clauses = p.selected_clauses) ∧
        (u.deal_value = none →
          (applyUpdate now u p).deal_value = p.deal_value) ∧
        (u.status ≠ some "Accepted" →
          (applyUpdate now u p).accepted_at = p.accepted_at)) := by
  refine ⟨update_proposal_not_found, update_proposal_found, ?_⟩
  intro now u p
  refine ⟨applyUpdate_id now u p, applyUpdate_created_at now u p,
    applyUpdate_updated_at now u p, ?_, ?_, ?_, ?_, ?_, ?_, ?_, ?_, ?_⟩
  · intro h; rw [applyUpdate_client_name, h]; rfl
  · intro h; rw [applyUpdate_project_description, h]; rfl
  · intro h; rw [applyUpdate_budget_range, h]; rfl
  · intro h; rw [applyUpdate_timeline, h]; rfl
  · intro h; rw [applyUpdate_status, h]; rfl
  · intro h; rw [applyUpdate_content, h]
  · intro h; rw [applyUpdate_selected_clauses, h]; rfl
  · intro h; rw [applyUpdate_deal_value, h]
  · intro h; rw [applyUpdate_accepted_at, if_neg h]

/-- C7 (witness): `C7_partial_update_semantics` applied to a store not
containing the requested id, to a store whose head matches, and to the
empty update on the draft proposal. -/
theorem C7_partial_update_semantics_witness :
    update_proposal 3 "ghost" emptyUpdate [draftProposal] =
      ([draftProposal], .error (404, "Proposal not found")) ∧
    (update_proposal 3 "p2" emptyUpdate [draftProposal]).2 =
      .ok (applyUpdate 3 emptyUpdate draftProposal) ∧
    (applyUpdate 3 emptyUpdate draftProposal).content = draftProposal.content :=
  ⟨C7_partial_update_semantics.1 3 "ghost" emptyUpdate [draftProposal]
      (by intro p hp; simp at hp; subst hp; decide),
   C7_partial_update_semantics.2.1 3 "p2" emptyUpdate [draftProposal]
      draftProposal (by rfl),
   (C7_partial_update_semantics.2.2 3 emptyUpdate
      draftProposal).2.2.2.2.2.2.2.2.1 rfl⟩

/-- C2 (confirmed): when the external provider send raises, `send_email`
fails with the 500 delivery failure and persists nothing — the proposals and
email_logs collections are exactly as before the call, because both writes
sit after the provider call in the handler body. -/
theorem C2_dispatch_all_or_nothing (now : Nat) (logId msg : String)
    (st : MailState) (req : SendEmailRequest) :
    (send_email now logId (.error msg) st req).1 = st ∧
    ∃ d, (send_email now logId (.error msg) st req).2 = .error (500, d) := by
  unfold send_email
  cases hfind : st.proposals.find? fun p => p.id = req.proposal_id with
  | none => exact ⟨rfl, _, rfl⟩
  | some p => exact ⟨rfl, _, rfl⟩

/-- C3 (code_bug): on the non-raising path — including an unknown log id —
`track_email_open` answers 200 / `image/gif` with the fixed 43-byte GIF, but
when the log update raises, the `except` branch references the still-unbound
`gif_bytes` local and raises `NameError` instead of returning the beacon, so
the error surfaces to the mail client. -/
theorem C3_track_open_beacon_bug :
    (track_email_open 7 false [] "unknown").2 =
      .ok { status := 200, mediaType := "image/gif", body := gifBytes } ∧
    gifBytes.length = 43 ∧
    (track_email_open 7 true [] "unknown").2 =
      .error (.nameError "gif_bytes") :=
  ⟨rfl, by decide, rfl⟩

/-- C8 (code_bug): with no proposal under the requested id, the handler's
own `HTTPException(404, "Proposal not found")` is swallowed by the blanket
`except Exception` and re-raised as a 500 `"Failed to send email: 404:
Proposal not found"`, so the caller sees a delivery failure, not the
`NotFound` the code itself tried to raise. -/
theorem C8_missing_proposal_surfaces_500 :
    send_email 3 "log1" (.ok "mid") oneProposalState sendReqMissing =
      (oneProposalState,
        .error (500, "Failed to send email: 404: Proposal not found")) := by
  rfl

/-- C10 (confirmed): pydantic maps both an absent field and an explicit
JSON `null` to `None`, and `update_proposal` filters every `None` out of the
`$set` document, so a null-valued field behaves exactly like an absent one:
the stored value is kept, and a stored non-null `content` or `deal_value`
can never become null through a transition. -/
theorem C10_null_fields_ignored :
    (∀ (now : Nat) (u : ProposalUpdate) (p : Proposal), u.content = none →
        (applyUpdate now u p).content = p.content) ∧
    (∀ (now : Nat) (u : ProposalUpdate) (p : Proposal), u.deal_value = none →
        (applyUpdate now u p).deal_value = p.deal_value) ∧
    (∀ (now : Nat) (u : ProposalUpdate) (p : Proposal), p.content ≠ none →
        (applyUpdate now u p).content ≠ none) ∧
    (∀ (now : Nat) (u : ProposalUpdate) (p : Proposal), p.deal_value ≠ none →
        (applyUpdate now u p).deal_value ≠ none) := by
  refine ⟨?_, ?_, ?_, ?_⟩
  · intro now u p h; rw [applyUpdate_content, h]
  · intro now u p h; rw [applyUpdate_deal_value, h]
  · intro now u p h
    rw [applyUpdate_content]
    cases u.content <;> simp [h]
  · intro now u p h
    rw [applyUpdate_deal_value]
    cases u.deal_value <;> simp [h]

/-- C10 (witness): `C10_null_fields_ignored` applied to the empty update on
the draft proposal, whose `content` and `deal_value` are non-null. -/
theorem C10_null_fields_ignored_witness :
    (applyUpdate 3 emptyUpdate draftProposal).content = draftProposal.content ∧
    (applyUpdate 3 emptyUpdate draftProposal).deal_value =
      draftProposal.deal_value ∧
    (applyUpdate 3 emptyUpdate draftProposal).content ≠ none ∧
    (applyUpdate 3 emptyUpdate draftProposal).deal_value ≠ none :=
  ⟨C10_null_fields_ignored.1 3 emptyUpdate draftProposal rfl,
   C10_null_fields_ignored.2.1 3 emptyUpdate draftProposal rfl,
   C10_null_fields_ignored.2.2.1 3 emptyUpdate draftProposal (by decide),
   C10_null_fields_ignored.2.2.2 3 emptyUpdate draftProposal (by decide)⟩

/-- C4 (counterexample): the claim says a `checkApproval` call after approval
leaves `approved_at` unchanged; on `approvedDoc` (approved at instant 1) a
second matching call at instant 2 re-stamps `approved_at` to 2. -/
theorem C4_counterexample_approved_at_restamped :
    (check_doc_approval 2 true [approvedDoc] "g1" "APPROVED"
        ["Looks good. APPROVED"]).1 =
      [{ approvedDoc with approved_at := some 2, updated_at := 2 }] ∧
    approvedDoc.approved_at = some 1 := by
  constructor
  · decide
  · rfl

/-- C4 (amended): with a valid credential, `checkApproval` reports
`approved = true` exactly when some comment body contains the keyword
case-insensitively; when it reports `false` the store is unchanged, and
when it reports `true` it stamps the first matching record with
`status = "approved"` and `approved_at` equal to the *current* instant —
so a repeated call after approval keeps the status at `approved` but
overwrites `approved_at` (and `updated_at`) with the new instant. -/
theorem C4_check_approval_scan_and_stamp (now : Nat)
    (docs : List DocumentRecord) (docId keyword : String)
    (comments : List String) :
    ((check_doc_approval now true docs docId keyword comments).2 =
        .ok true ↔ ∃ c ∈ comments, (upper keyword).data <:+: (upper c).data) ∧
    ((check_doc_approval now true docs docId keyword comments).2 = .ok false →
      (check_doc_approval now true docs docId keyword comments).1 = docs) ∧
    ((check_doc_approval now true docs docId keyword comments).2 = .ok true →
      ∀ d, docs.find? (fun x => x.google_doc_id = docId) = some d →
        (check_doc_approval now true docs docId keyword comments).1.find?
            (fun x => x.google_doc_id = docId) =
          some { d with status := "approved", approved_at := some now,
                        updated_at := now }) := by
  by_cases h : comments.any (fun c => upperContains c keyword) = true
  · have h2 : check_doc_approval now true docs docId keyword comments =
        (updateFirstP (fun d => d.google_doc_id = docId)
          (fun d => { d with status := "approved", approved_at := some now,
                             updated_at := now }) docs, .ok true) := by
      unfold check_doc_approval
      simp [h]
    refine ⟨?_, ?_, ?_⟩
    · rw [h2]
      simp only [true_iff]
      obtain ⟨c, hc, hcc⟩ := List.any_eq_true.mp h
      exact ⟨c, hc, of_decide_eq_true hcc⟩
    · intro habs
      rw [h2] at habs
      simp at habs
    · intro _ d hd
      rw [h2]
      have hstep := find?_updateFirstP (fun x => x.google_doc_id = docId)
        (fun d => { d with status := "approved", approved_at := some now,
                           updated_at := now }) (fun a ha => ha) docs
      simp only [hstep, hd]
      rfl
  · have hfalse : comments.any (fun c => upperContains c keyword) = false :=
      Bool.eq_false_iff.mpr h
    have h2 : check_doc_approval now true docs docId keyword comments =
        (docs, .ok false) := by
      unfold check_doc_approval
      simp [hfalse]
    refine ⟨?_, ?_, ?_⟩
    · rw [h2]
      simp only [Except.ok.injEq, Bool.false_eq_true, false_iff]
      rintro ⟨c, hc, hcc⟩
      exact h (List.any_eq_true.mpr ⟨c, hc, decide_eq_true hcc⟩)
    · intro _
      rw [h2]
    · intro habs
      rw [h2] at habs
      simp at habs

/-- C4 (witness): `C4_check_approval_scan_and_stamp` applied to the already
approved document with a matching comment at instant 2. -/
theorem C4_check_approval_scan_and_stamp_witness :
    (check_doc_approval 2 true [approvedDoc] "g1" "APPROVED"
        ["ship it APPROVED"]).1.find? (fun x => x.google_doc_id = "g1") =
      some ({ approvedDoc with
                status := "approved", approved_at := some 2,
                updated_at := 2 }) :=
  (C4_check_approval_scan_and_stamp 2 [approvedDoc] "g1" "APPROVED"
      ["ship it APPROVED"]).2.2 (by rfl) approvedDoc (by rfl)

/-- C5 (counterexample): the claim says a matching event and stage always
create exactly one `PendingDeal`; `emptyContactsPayload` has the matching
event and the stage `"Proposal Sent"`, yet the handler raises `IndexError`
on its explicitly empty `linked_contacts` list, stores nothing, and answers
500. -/
theorem C5_counterexample_empty_contacts :
    webhookMatches emptyContactsPayload ∧
    (brevo_webhook 5 "id2" [] emptyContactsPayload).1 = [] ∧
    (brevo_webhook 5 "id2" [] emptyContactsPayload).2 =
      .error (500, "Webhook processing failed: list index out of range") := by
  refine ⟨⟨rfl, "proposal sent", rfl, by decide⟩, rfl, rfl⟩

/-- C5 (amended): on every payload of safe shape (`webhookSafe`: for a
`deal.stage.update` event, a present `data` is an object, a present
`attributes` an object, a present `pipeline_stage` a string, and — when
the stage matches — present linked lists are non-empty arrays headed by an
object), the webhook stores exactly one `PendingDeal` with
`status = "pending_doc_creation"` when and only when the event is
`deal.stage.update` and the lowered stage label contains `"proposal"`;
otherwise (other event, missing event, non-matching stage) it acknowledges
with success and stores nothing. -/
theorem C5_webhook_filter (now : Nat) (newId : String)
    (deals : List PendingDeal) (payload : List (String × Json))
    (hok : webhookSafe payload = true) :
    (webhookMatches payload →
      ∃ d, (brevo_webhook now newId deals payload).1 = deals ++ [d] ∧
        d.status = "pending_doc_creation" ∧ d.id = newId ∧
        (brevo_webhook now newId deals payload).2 =
          .ok "Deal queued for proposal creation") ∧
    (¬ webhookMatches payload →
      (brevo_webhook now newId deals payload).1 = deals ∧
      (brevo_webhook now newId deals payload).2 = .ok "Webhook received") := by
  constructor
  · rintro ⟨he, s, hs, hinf⟩
    have hll : linkedListsOk payload = true := by
      unfold webhookSafe at hok
      rw [he, if_pos rfl, hs] at hok
      simpa [hinf] using hok
    obtain ⟨d, hd, hst, hid, _⟩ :=
      brevo_webhook_match_ok now newId deals payload he s hs hinf hll
    exact ⟨d, by rw [hd], hst, hid, by rw [hd]⟩
  · intro hnm
    by_cases he : jeqStr (objGet payload "event" Json.null)
        "deal.stage.update" = true
    · cases hs : stageStrOf (dataOf payload) with
      | none =>
          exfalso
          unfold webhookSafe at hok
          rw [he, if_pos rfl, hs] at hok
          simp at hok
      | some s =>
          by_cases hinf : "proposal".data <:+: s.data
          · exact absurd ⟨he, s, hs, hinf⟩ hnm
          · rw [brevo_webhook_no_match now newId deals payload he s hs hinf]
            exact ⟨rfl, rfl⟩
    · rw [brevo_webhook_other_event now newId deals payload
        (Bool.eq_false_iff.mpr he)]
      exact ⟨rfl, rfl⟩

/-- C5 (witness): `C5_webhook_filter` applied to the matching payload with
all optional deal fields absent, and to the `"Negotiation"`-stage payload. -/
theorem C5_webhook_filter_witness :
    (∃ d, (brevo_webhook 6 "w1" [] bareMatchingPayload).1 = [] ++ [d] ∧
      d.status = "pending_doc_creation" ∧ d.id = "w1" ∧
      (brevo_webhook 6 "w1" [] bareMatchingPayload).2 =
        .ok "Deal queued for proposal creation") ∧
    ((brevo_webhook 6 "w2" [] negotiationPayload).1 = [] ∧
      (brevo_webhook 6 "w2" [] negotiationPayload).2 = .ok "Webhook received") :=
  ⟨(C5_webhook_filter 6 "w1" [] bareMatchingPayload rfl).1
    ⟨rfl, "proposal sent", rfl, by decide⟩,
   (C5_webhook_filter 6 "w2" [] negotiationPayload rfl).2
    (by rintro ⟨-, s, hs, hinf⟩
        rw [show stageStrOf (dataOf negotiationPayload) =
          some "negotiation" from rfl] at hs
        injection hs with h
        subst h
        exact absurd hinf (by decide))⟩

/-- C6 (counterexample): the claim says every parseable JSON payload is
answered with success; `emptyCompaniesPayload` (matching event and stage,
`linked_companies` present but empty) raises `IndexError`, and
`nullDataPayload` (`data` present as JSON null) raises `AttributeError` at
the stage lookup — both are answered 500. -/
theorem C6_counterexample_empty_companies :
    brevo_webhook 5 "id1" [] emptyCompaniesPayload =
      ([], .error (500, "Webhook processing failed: list index out of range")) ∧
    brevo_webhook 5 "idN" [] nullDataPayload =
      ([], .error (500,
        "Webhook processing failed: \x27NoneType\x27 object has no attribute \x27get\x27")) := by
  exact ⟨rfl, rfl⟩

/-- C6 (amended): the webhook answers success exactly on the payloads of
safe shape: when the event is `deal.stage.update`, a present `data` value
must be an object, a present `attributes` an object, a present
`pipeline_stage` a string, and — when the stage matches `"proposal"` — the
linked-company / linked-contact values, when present, must be non-empty
arrays headed by an object.  Absent keys (event, data, attributes, stage,
deal name, amount, the linked lists, their name/email) default safely,
while a present-null or mistyped value on the navigated path raises
internally and is answered 500. -/
theorem C6_webhook_accepts (now : Nat) (newId : String)
    (deals : List PendingDeal) (payload : List (String × Json)) :
    (∃ m, (brevo_webhook now newId deals payload).2 = .ok m) ↔
      webhookSafe payload = true := by
  by_cases he : jeqStr (objGet payload "event" Json.null)
      "deal.stage.update" = true
  · cases hs : stageStrOf (dataOf payload) with
    | none =>
        obtain ⟨m, hm⟩ := brevo_webhook_stage_err now newId deals payload he hs
        constructor
        · rintro ⟨m2, hm2⟩
          rw [hm] at hm2
          exact absurd hm2 (by simp)
        · intro hsafe
          exfalso
          unfold webhookSafe at hsafe
          rw [he, if_pos rfl, hs] at hsafe
          simp at hsafe
    | some s =>
        by_cases hinf : "proposal".data <:+: s.data
        · by_cases hll : linkedListsOk payload = true
          · obtain ⟨d, hd, -⟩ :=
              brevo_webhook_match_ok now newId deals payload he s hs hinf hll
            constructor
            · intro _
              unfold webhookSafe
              rw [he, if_pos rfl, hs]
              simpa [hinf] using hll
            · intro _
              exact ⟨_, by rw [hd]⟩
          · obtain ⟨m, hm⟩ := brevo_webhook_match_err now newId deals payload
              he s hs hinf (Bool.eq_false_iff.mpr hll)
            constructor
            · rintro ⟨m2, hm2⟩
              rw [hm] at hm2
              exact absurd hm2 (by simp)
            · intro hsafe
              exfalso
              unfold webhookSafe at hsafe
              rw [he, if_pos rfl, hs] at hsafe
              exact hll (by simpa [hinf] using hsafe)
        · rw [brevo_webhook_no_match now newId deals payload he s hs hinf]
          constructor
          · intro _
            unfold webhookSafe
            rw [he, if_pos rfl, hs]
            simp [hinf]
          · intro _
            exact ⟨_, rfl⟩
  · rw [brevo_webhook_other_event now newId deals payload
      (Bool.eq_false_iff.mpr he)]
    constructor
    · intro _
      unfold webhookSafe
      rw [Bool.eq_false_iff.mpr he]
      simp
    · intro _
      exact ⟨_, rfl⟩

/-- C9 (counterexample): the claim says `exportPdf` fails with `NotFound`
when no local metadata exists for the document id; with an empty metadata
store the handler succeeds with the fallback title `"document"` instead of
failing. -/
theorem C9_counterexample_no_notfound :
    export_doc_to_pdf true [] "gX" (.ok [37, 80, 68, 70]) =
      .ok { status := 200, mediaType := "application/pdf",
            body := [37, 80, 68, 70], filename := "document.pdf" } := by
  rfl

/-- C9 (amended): with a valid credential, `exportPdf` never fails on
missing local metadata: an absent record — and likewise a record without a
title — falls back to the generic title `"document"`, a present title is
used for the download filename, and the only export failure is the
provider call failing (surfaced as 500). -/
theorem C9_export_pdf_title_fallback (docs : List DocumentRecord)
    (docId : String) (pdf : List Nat) (e : String) :
    (docs.find? (fun d => d.google_doc_id = docId) = none →
      export_doc_to_pdf true docs docId (.ok pdf) =
        .ok { status := 200, mediaType := "application/pdf", body := pdf,
              filename := "document.pdf" }) ∧
    (∀ m, docs.find? (fun d => d.google_doc_id = docId) = some m →
      export_doc_to_pdf true docs docId (.ok pdf) =
        .ok { status := 200, mediaType := "application/pdf", body := pdf,
              filename := m.title.getD "document" ++ ".pdf" }) ∧
    (export_doc_to_pdf true docs docId (.error e) =
      .error (500, "Failed to export PDF: " ++ e)) := by
  refine ⟨?_, ?_, ?_⟩
  · intro h
    simp [export_doc_to_pdf, h]
    rfl
  · intro m h
    simp [export_doc_to_pdf, h]
  · simp [export_doc_to_pdf]

/-- C9 (witness): `C9_export_pdf_title_fallback` applied to the store
holding only the untitled record, for a missing id and for the record's own
id. -/
theorem C9_export_pdf_title_fallback_witness :
    export_doc_to_pdf true [untitledDoc] "gX" (.ok [1]) =
      .ok { status := 200, mediaType := "application/pdf", body := [1],
            filename := "document.pdf" } ∧
    export_doc_to_pdf true [untitledDoc] "g2" (.ok [1]) =
      .ok { status := 200, mediaType := "application/pdf", body := [1],
            filename := untitledDoc.title.getD "document" ++ ".pdf" } :=
  ⟨(C9_export_pdf_title_fallback [untitledDoc] "gX" [1] "x").1 (by rfl),
   (C9_export_pdf_title_fallback [untitledDoc] "g2" [1] "x").2.1
      untitledDoc (by rfl)⟩
